import Mathlib

/-!
Shallow embedding of the log-broadcast subsystem of `webui.py`:
the connection registry (`websocket_clients`), the broadcast hub
(`broadcast_log_message`), the line-assembling tee stream
(`TeeLoggerStream`), and the logging rewire
(`attach_handler_to_all_loggers` together with the standard-library
semantics of `Logger.addHandler`, `setLevel`, `propagate` and
`callHandlers` that the rewire relies on).

Strings are modelled as `List Char`; connections and handlers are
identified by opaque numeric ids.  The `debug` diagnostic channel of the
source has no effect on any modelled state and is omitted.
-/

/-- Connections are identified by opaque ids (one id per live websocket). -/
abbrev Conn := Nat

/-- State read by `broadcast_log_message` (lines 46-67 of `webui.py`):
the registry snapshot `websocket_clients` (a copy is iterated, modelled as
a list fixing the iteration order), whether the global `websocket_loop`
reference has been published (None vs. a running loop), and for each
connection whether building its send task (the `try` around `ws.send`)
and the actual send on the loop succeed. -/
structure BroadcastState where
  websocket_clients : List Conn
  websocket_loop : Bool
  createOk : Conn → Bool
  sendOk : Conn → Bool

/-- Observable outcome of one `broadcast_log_message` call:
whether an exception escaped to the caller, how many `ws.send(...)`
invocations were made, whether work was submitted to the event loop via
`run_coroutine_threadsafe`, and which connections received the line. -/
structure BroadcastResult where
  raised : Bool
  sendCalls : Nat
  submitted : Bool
  delivered : List Conn

/-- `broadcast_log_message(message)` (lines 46-67).  Empty registry:
return at once.  Otherwise build `send_tasks` over a copy of the registry
(each `ws.send` call is inside a `try/except`, so a failing creation is
filtered out and contained); if some task was built and the loop
reference is published, submit `asyncio.gather(..., return_exceptions=True)`
and wait, with the whole submission wrapped in `try/except`: each send
outcome is collected independently and no exception ever escapes. -/
def broadcast_log_message (st : BroadcastState) : BroadcastResult :=
  if st.websocket_clients.isEmpty then
    { raised := false, sendCalls := 0, submitted := false, delivered := [] }
  else
    let send_tasks := st.websocket_clients.filter st.createOk
    if !send_tasks.isEmpty && st.websocket_loop then
      { raised := false,
        sendCalls := st.websocket_clients.length,
        submitted := true,
        delivered := send_tasks.filter st.sendOk }
    else
      { raised := false,
        sendCalls := st.websocket_clients.length,
        submitted := false,
        delivered := [] }

/-- Whitespace as stripped by Python's `str.strip()` on the ASCII range. -/
def pySpace (c : Char) : Bool :=
  c == ' ' || c == '\t' || c == '\n' || c == '\r' || c == '\x0b' || c == '\x0c'

/-- Python `line.strip()`: drop leading and trailing whitespace. -/
def pyStrip (s : List Char) : List Char :=
  ((s.dropWhile pySpace).reverse.dropWhile pySpace).reverse

/-- Python `s.split("\n")`: split on every newline, keeping empty
segments, always returning at least one segment. -/
def splitNl : List Char → List (List Char)
  | [] => [[]]
  | c :: rest =>
    if c = '\n' then [] :: splitNl rest
    else
      match splitNl rest with
      | [] => [[c]]
      | s :: ss => (c :: s) :: ss

/-- Rejoin segments with a newline between consecutive segments
(inverse of `splitNl`, used to state that the segments are exactly the
maximal newline-free pieces of the input). -/
def joinNl : List (List Char) → List Char
  | [] => []
  | [l] => l
  | l :: ls => l ++ '\n' :: joinNl ls

/-- State of one `TeeLoggerStream` (lines 70-93): the pending fragment
`self._buffer`, plus the two observable traces: the chunks passed to
`original_stream.write` and the lines handed to `broadcast_log_message`. -/
structure TeeLoggerStream where
  buffer : List Char
  sinkWritten : List (List Char)
  emitted : List (List Char)
deriving DecidableEq

/-- Result of `TeeLoggerStream.write`: `ok` when the call returns,
`err` when an exception from the original sink propagates to the caller;
either way the observable state at that point is carried. -/
inductive WriteResult
  | ok (st : TeeLoggerStream)
  | err (st : TeeLoggerStream)
deriving DecidableEq

/-- `TeeLoggerStream.write(message)` (lines 75-84).  `wOk` / `fOk` say
whether `original_stream.write` / `original_stream.flush` succeed on this
call; a failure there propagates (nothing after it runs).  Otherwise the
chunk is appended to the buffer and, if the buffer now contains a
newline, every segment before the last newline is stripped and — when
non-empty — emitted, the text after the last newline staying buffered.
`broadcast_log_message` never raises, so emission cannot fail the write. -/
def TeeLoggerStream.write (wOk fOk : Bool) (st : TeeLoggerStream)
    (message : List Char) : WriteResult :=
  let st1 : TeeLoggerStream := { st with sinkWritten := st.sinkWritten ++ [message] }
  if !wOk then WriteResult.err st1
  else if !fOk then WriteResult.err st1
  else
    let buf := st1.buffer ++ message
    if buf.contains '\n' then
      let lines := splitNl buf
      let emits := lines.dropLast.filterMap (fun line =>
        let t := pyStrip line
        if t.isEmpty then none else some t)
      WriteResult.ok { st1 with buffer := lines.getLastD [],
                                emitted := st1.emitted ++ emits }
    else
      WriteResult.ok { st1 with buffer := buf }

/-- Operations a `TeeLoggerStream` can perform on its wrapped sink. -/
inductive SinkOp
  | opWrite (chunk : List Char)
  | opFlush
  | opClose
deriving DecidableEq

/-- `TeeLoggerStream.flush` (lines 86-87): delegates to
`original_stream.flush()` and changes no state. -/
def TeeLoggerStream.flush (st : TeeLoggerStream) : TeeLoggerStream × List SinkOp :=
  (st, [SinkOp.opFlush])

/-- `TeeLoggerStream.close` (lines 92-93): the body is `pass`; no sink
operation is performed and no state changes. -/
def TeeLoggerStream.close (st : TeeLoggerStream) : TeeLoggerStream × List SinkOp :=
  (st, [])

/-- The state reached after a write, whether it returned or raised. -/
def WriteResult.state : WriteResult → TeeLoggerStream
  | WriteResult.ok st => st
  | WriteResult.err st => st

/-- A fresh `TeeLoggerStream(original_stream)`: empty buffer, nothing yet
written through or emitted. -/
def initTee : TeeLoggerStream := { buffer := [], sinkWritten := [], emitted := [] }

/-- A sequence of writes on one stream, all with a healthy sink. -/
def writeAll (st : TeeLoggerStream) (chunks : List (List Char)) : TeeLoggerStream :=
  chunks.foldl (fun s c => (TeeLoggerStream.write true true s c).state) st

/-- Registry removal as performed in the `finally` of `websocket_handler`
(line 31): Python's `set.remove`, which raises `KeyError` (modelled as
`none`) when the element is absent. -/
def unregister (registry : Finset Conn) (conn : Conn) : Option (Finset Conn) :=
  if conn ∈ registry then some (registry.erase conn) else none

/-- A logging handler: identity plus its own minimum level
(a fresh `BroadcastingHandler()` has level `NOTSET = 0`). -/
structure Handler where
  id : Nat
  level : Nat
deriving DecidableEq

/-- The per-logger state touched by the rewire: handler list, level,
propagation flag. -/
structure Logger where
  handlers : List Handler
  level : Nat
  propagate : Bool
deriving DecidableEq

/-- `logging.INFO`. -/
def INFO : Nat := 20

/-- Standard-library `Logger.addHandler`: append unless already present. -/
def addHandler (lg : Logger) (h : Handler) : Logger :=
  if h ∈ lg.handlers then lg else { lg with handlers := lg.handlers ++ [h] }

/-- The per-logger effect of `attach_handler_to_all_loggers` (the source
clears every logger's handler list in a first pass over all loggers, then
in a second pass adds the given handlers, sets the level to INFO and
disables propagation; loggers are independent, so per logger the two
passes compose to this). -/
def attachTo (hs : List Handler) (lg : Logger) : Logger :=
  let cleared : Logger := { lg with handlers := [] }
  let added := hs.foldl addHandler cleared
  { added with level := INFO, propagate := false }

/-- The logger registry at rewire time: the names in
`logging.root.manager.loggerDict` (ids), the logger behind each name, and
the root logger.  Names absent from `names` are loggers that do not yet
exist. -/
structure LoggingState where
  names : List Nat
  getLogger : Nat → Logger
  root : Logger

/-- `attach_handler_to_all_loggers(*handlers)` (lines 105-119): rewires
every logger whose name is registered, and the root logger. -/
def attach_handler_to_all_loggers (hs : List Handler) (st : LoggingState) : LoggingState :=
  { st with
    getLogger := fun n => if n ∈ st.names then attachTo hs (st.getLogger n) else st.getLogger n,
    root := attachTo hs st.root }

/-- Standard-library `Logger.callHandlers` on the ancestor chain of a
logger (the logger first, then its dot-ancestors, root last): each
logger's handlers whose level does not exceed the record's are invoked;
the walk stops at the first logger with propagation disabled.  Returns
how many times the handler `a` is invoked. -/
def callHandlersCount (a : Handler) (recLevel : Nat) : List Logger → Nat
  | [] => 0
  | lg :: rest =>
    (lg.handlers.filter (fun h => decide (h = a) && decide (h.level ≤ recLevel))).length +
      (if lg.propagate then callHandlersCount a recLevel rest else 0)

/-- Standard-library `Logger.getEffectiveLevel`: the first level set on
the chain, `NOTSET = 0` when none is. -/
def getEffectiveLevel : List Logger → Nat
  | [] => 0
  | lg :: rest => if lg.level ≠ 0 then lg.level else getEffectiveLevel rest

/-- Emitting one record of severity `recLevel` through the logger at the
head of `chain`: dropped unless the severity reaches the effective level,
otherwise handled by `callHandlers`.  Returns how many times handler `a`
is invoked. -/
def emitRecord (chain : List Logger) (recLevel : Nat) (a : Handler) : Nat :=
  if getEffectiveLevel chain ≤ recLevel then callHandlersCount a recLevel chain else 0

/-- A concrete broadcast state: two connections, loop published, the
send to connection 2 fails. -/
def exC1 : BroadcastState :=
  { websocket_clients := [1, 2], websocket_loop := true,
    createOk := fun _ => true, sendOk := fun c => decide (c = 1) }

/-- A concrete broadcast state: one connection but the loop reference is
still unpublished. -/
def exC6 : BroadcastState :=
  { websocket_clients := [7], websocket_loop := false,
    createOk := fun _ => true, sendOk := fun _ => true }

/-- A concrete broadcast state: empty registry. -/
def exC8 : BroadcastState :=
  { websocket_clients := [], websocket_loop := true,
    createOk := fun _ => true, sendOk := fun _ => true }

/-- A concrete adapter handler id with level `NOTSET`. -/
def exHandler : Handler := { id := 5, level := 0 }

/-- A concrete pre-rewire logging registry: one named logger, a root at
level `WARNING`, both still propagating. -/
def exLoggingState : LoggingState :=
  { names := [1],
    getLogger := fun _ => { handlers := [], level := 0, propagate := true },
    root := { handlers := [], level := 30, propagate := true } }

/-- A concrete ancestor logger that also carries the adapter handler
(propagation being disabled must keep it from firing a second time). -/
def exAncestor : Logger :=
  { handlers := [{ id := 5, level := 0 }], level := 0, propagate := true }

/-! Helper lemmas about `splitNl`, `joinNl` and stripping. -/

theorem splitNl_ne_nil (s : List Char) : splitNl s ≠ [] := by
  induction s with
  | nil => simp [splitNl]
  | cons c rest ih =>
    simp only [splitNl]
    split
    · simp
    · cases h : splitNl rest with
      | nil => simp
      | cons x xs => simp

theorem joinNl_cons_head (c : Char) (x : List Char) (xs : List (List Char)) :
    joinNl ((c :: x) :: xs) = c :: joinNl (x :: xs) := by
  cases xs <;> rfl

theorem joinNl_splitNl (s : List Char) : joinNl (splitNl s) = s := by
  induction s with
  | nil => rfl
  | cons c rest ih =>
    simp only [splitNl]
    split
    case isTrue h =>
      cases hs : splitNl rest with
      | nil => exact absurd hs (splitNl_ne_nil rest)
      | cons x xs =>
        rw [hs] at ih
        subst h
        show joinNl ([] :: x :: xs) = '\n' :: rest
        rw [show joinNl ([] :: x :: xs) = [] ++ '\n' :: joinNl (x :: xs) from rfl]
        simp [ih]
    case isFalse h =>
      cases hs : splitNl rest with
      | nil => exact absurd hs (splitNl_ne_nil rest)
      | cons x xs =>
        rw [hs] at ih
        show joinNl ((c :: x) :: xs) = c :: rest
        rw [joinNl_cons_head, ih]

theorem not_nl_mem_splitNl (s : List Char) : ∀ l ∈ splitNl s, '\n' ∉ l := by
  induction s with
  | nil =>
    intro l hl
    simp [splitNl] at hl
    subst hl
    simp
  | cons c rest ih =>
    intro l hl
    simp only [splitNl] at hl
    split at hl
    case isTrue h =>
      rcases List.mem_cons.mp hl with h1 | h1
      · subst h1; simp
      · exact ih l h1
    case isFalse h =>
      cases hs : splitNl rest with
      | nil => exact absurd hs (splitNl_ne_nil rest)
      | cons x xs =>
        rw [hs] at hl
        rcases List.mem_cons.mp hl with h1 | h1
        · subst h1
          intro hmem
          rcases List.mem_cons.mp hmem with h2 | h2
          · exact h h2.symm
          · exact ih x (by rw [hs]; exact List.mem_cons_self x xs) h2
        · exact ih l (by rw [hs]; exact List.mem_cons_of_mem x h1)

theorem splitNl_eq_of_not_contains (s : List Char) (h : s.contains '\n' = false) :
    splitNl s = [s] := by
  induction s with
  | nil => rfl
  | cons c rest ih =>
    simp only [List.contains_cons, Bool.or_eq_false_iff, beq_eq_false_iff_ne, ne_eq] at h
    simp only [splitNl]
    rw [if_neg (fun hc => h.1 hc.symm), ih h.2]

theorem filterMap_strip (L : List (List Char)) :
    L.filterMap (fun line => if (pyStrip line).isEmpty then none else some (pyStrip line))
      = (L.map pyStrip).filter (fun l => !l.isEmpty) := by
  induction L with
  | nil => rfl
  | cons x xs ih =>
    cases h : (pyStrip x).isEmpty with
    | true =>
      rw [List.filterMap_cons_none (by simp [h]), List.map_cons,
        List.filter_cons_of_neg (by simp [h]), ih]
    | false =>
      rw [List.filterMap_cons_some (b := pyStrip x) (by simp [h]), List.map_cons,
        List.filter_cons_of_pos (by simp [h]), ih]

theorem write_ok (st : TeeLoggerStream) (chunk : List Char) :
    TeeLoggerStream.write true true st chunk =
      WriteResult.ok
        { buffer := (splitNl (st.buffer ++ chunk)).getLastD [],
          sinkWritten := st.sinkWritten ++ [chunk],
          emitted := st.emitted ++
            ((splitNl (st.buffer ++ chunk)).dropLast.map pyStrip).filter
              (fun l => !l.isEmpty) } := by
  simp only [TeeLoggerStream.write, Bool.not_true, Bool.false_eq_true, if_false]
  cases h : (st.buffer ++ chunk).contains '\n'
  · rw [splitNl_eq_of_not_contains _ h]
    simp [h]
  · rw [if_pos rfl, filterMap_strip]

theorem writeAll_cons (st : TeeLoggerStream) (c : List Char) (cs : List (List Char)) :
    writeAll st (c :: cs) = writeAll ((TeeLoggerStream.write true true st c).state) cs := rfl

theorem writeAll_sinkWritten (st : TeeLoggerStream) (chunks : List (List Char)) :
    (writeAll st chunks).sinkWritten = st.sinkWritten ++ chunks := by
  induction chunks generalizing st with
  | nil => simp [writeAll]
  | cons c cs ih =>
    rw [writeAll_cons, ih, write_ok]
    simp [WriteResult.state]

/-- C2: on every write with a healthy sink, the buffered text plus the
chunk is decomposed into its maximal newline-free segments (`joinNl` over
`splitNl` restores the text and no segment contains a newline); every
segment before the last one is stripped and emitted, in order, exactly
when its stripped form is non-empty; exactly the final segment — the text
after the last newline — stays buffered.  In particular writing "ab" then
"c\nd" produces exactly the one emission "abc", with "d" left buffered. -/
theorem C2_write_extracts_lines :
    (∀ (st : TeeLoggerStream) (chunk : List Char), ∃ st' : TeeLoggerStream,
      TeeLoggerStream.write true true st chunk = WriteResult.ok st' ∧
      joinNl (splitNl (st.buffer ++ chunk)) = st.buffer ++ chunk ∧
      (∀ l ∈ splitNl (st.buffer ++ chunk), '\n' ∉ l) ∧
      st'.emitted = st.emitted ++
        ((splitNl (st.buffer ++ chunk)).dropLast.map pyStrip).filter (fun l => !l.isEmpty) ∧
      st'.buffer = (splitNl (st.buffer ++ chunk)).getLastD []) ∧
    (∃ stA stB : TeeLoggerStream,
      TeeLoggerStream.write true true initTee ['a', 'b'] = WriteResult.ok stA ∧
      TeeLoggerStream.write true true stA ['c', '\n', 'd'] = WriteResult.ok stB ∧
      stB.emitted = [['a', 'b', 'c']] ∧
      stB.buffer = ['d']) := by
  constructor
  · intro st chunk
    exact ⟨_, write_ok st chunk, joinNl_splitNl _, not_nl_mem_splitNl _, rfl, rfl⟩
  · exact ⟨{ buffer := ['a', 'b'], sinkWritten := [['a', 'b']], emitted := [] },
      { buffer := ['d'], sinkWritten := [['a', 'b'], ['c', '\n', 'd']],
        emitted := [['a', 'b', 'c']] },
      by decide, by decide, rfl, rfl⟩

/-- C3: over any finite sequence of writes on a fresh stream with a
healthy sink, the chunks handed to the original sink are exactly the
input chunks, so their concatenation reproduces the input byte for byte. -/
theorem C3_sink_sees_input_byte_for_byte :
    (∀ chunks : List (List Char), (writeAll initTee chunks).sinkWritten = chunks) ∧
    (∀ chunks : List (List Char),
      ((writeAll initTee chunks).sinkWritten).flatten = chunks.flatten) := by
  constructor
  · intro chunks
    rw [writeAll_sinkWritten]
    simp [initTee]
  · intro chunks
    rw [writeAll_sinkWritten]
    simp [initTee]

/-- C5 as stated is false at a concrete input: `close` on a fresh stream
performs no sink operation at all — in particular it does not perform the
sink's close. -/
theorem C5_close_counterexample :
    (TeeLoggerStream.close initTee).2 = [] ∧
    (TeeLoggerStream.close initTee).2 ≠ [SinkOp.opClose] :=
  ⟨rfl, by decide⟩

/-- C5 amended: `flush` performs exactly the sink's flush and `close`
performs no operation on the sink at all (its body is `pass`); neither
call emits buffered text to the Broadcast Hub, and the partial-line
buffer is unchanged by both. -/
theorem C5_flush_close_amended (st : TeeLoggerStream) :
    TeeLoggerStream.flush st = (st, [SinkOp.opFlush]) ∧
    TeeLoggerStream.close st = (st, []) ∧
    (TeeLoggerStream.flush st).1.buffer = st.buffer ∧
    (TeeLoggerStream.flush st).1.emitted = st.emitted ∧
    (TeeLoggerStream.close st).1.buffer = st.buffer ∧
    (TeeLoggerStream.close st).1.emitted = st.emitted :=
  ⟨rfl, rfl, rfl, rfl, rfl, rfl⟩

/-- C9: a failing local-sink write makes the tee's write itself raise to
its caller (never suppressed), while the whole remote-broadcast path —
task creation, loop availability, the sends themselves — never lets an
exception escape `broadcast_log_message`. -/
theorem C9_local_failures_propagate_remote_contained :
    (∀ (fOk : Bool) (st : TeeLoggerStream) (chunk : List Char),
      ∃ st', TeeLoggerStream.write false fOk st chunk = WriteResult.err st') ∧
    (∀ bst : BroadcastState, (broadcast_log_message bst).raised = false) := by
  constructor
  · intro fOk st chunk
    exact ⟨_, rfl⟩
  · intro bst
    simp only [broadcast_log_message]
    split
    · rfl
    · split <;> rfl

/-- C10: when the sink write, or the flush immediately after it, raises,
the tee's write propagates the failure with the partial-line buffer
unchanged and nothing extra emitted to the Broadcast Hub. -/
theorem C10_failed_write_has_no_broadcast_effect (wOk fOk : Bool)
    (st : TeeLoggerStream) (chunk : List Char)
    (h : wOk = false ∨ fOk = false) :
    ∃ st', TeeLoggerStream.write wOk fOk st chunk = WriteResult.err st' ∧
      st'.buffer = st.buffer ∧ st'.emitted = st.emitted := by
  rcases h with h | h
  · subst h
    exact ⟨_, rfl, rfl, rfl⟩
  · subst h
    cases wOk
    · exact ⟨_, rfl, rfl, rfl⟩
    · exact ⟨_, rfl, rfl, rfl⟩

/-- C10 witness: a failing sink write on a fresh stream, chunk "a". -/
theorem C10_witness :
    (false = false ∨ true = false) ∧
    (∃ st', TeeLoggerStream.write false true initTee ['a'] = WriteResult.err st' ∧
      st'.buffer = initTee.buffer ∧ st'.emitted = initTee.emitted) :=
  ⟨Or.inl rfl,
    C10_failed_write_has_no_broadcast_effect false true initTee ['a'] (Or.inl rfl)⟩

/-! Broadcast hub, registry and logging claims. -/

theorem filter_filter_and (l : List Conn) (p q : Conn → Bool) :
    (l.filter p).filter q = l.filter (fun c => p c && q c) := by
  induction l with
  | nil => rfl
  | cons a l ih =>
    cases hp : p a <;> cases hq : q a <;> simp [List.filter_cons, hp, hq, ih]

theorem broadcast_never_raises (bst : BroadcastState) :
    (broadcast_log_message bst).raised = false := by
  simp only [broadcast_log_message]
  split
  · rfl
  · split <;> rfl

/-- C1: with a non-empty registry and a published loop, broadcast
completes without raising, and the connections that receive the line are
exactly those whose task creation and send both succeed — a failing
connection never cancels or blocks delivery to the others. -/
theorem C1_broadcast_isolates_send_failures (st : BroadcastState)
    (hne : st.websocket_clients ≠ []) (hloop : st.websocket_loop = true) :
    (broadcast_log_message st).raised = false ∧
    (broadcast_log_message st).delivered =
      st.websocket_clients.filter (fun c => st.createOk c && st.sendOk c) ∧
    ∀ c ∈ st.websocket_clients, st.createOk c = true → st.sendOk c = true →
      c ∈ (broadcast_log_message st).delivered := by
  have hie : st.websocket_clients.isEmpty = false := by
    simpa [List.isEmpty_iff] using hne
  have hdel : (broadcast_log_message st).delivered =
      st.websocket_clients.filter (fun c => st.createOk c && st.sendOk c) := by
    simp only [broadcast_log_message, hie, Bool.false_eq_true, if_false]
    rw [hloop]
    cases hts : (st.websocket_clients.filter st.createOk).isEmpty
    · simp only [hts, Bool.not_false, Bool.and_true, if_pos rfl]
      exact filter_filter_and _ _ _
    · simp only [hts, Bool.not_true, Bool.false_and, Bool.false_eq_true, if_false]
      rw [List.isEmpty_iff] at hts
      rw [← filter_filter_and, hts]
      rfl
  refine ⟨broadcast_never_raises st, hdel, ?_⟩
  intro c hc hcr hsd
  rw [hdel, List.mem_filter]
  exact ⟨hc, by simp [hcr, hsd]⟩

/-- C1 witness: connections 1 and 2, loop published, the send to 2
fails; the call does not raise and 1 still receives the line. -/
theorem C1_witness :
    (exC1.websocket_clients ≠ [] ∧ exC1.websocket_loop = true) ∧
    ((broadcast_log_message exC1).raised = false ∧
      (broadcast_log_message exC1).delivered =
        exC1.websocket_clients.filter (fun c => exC1.createOk c && exC1.sendOk c) ∧
      ∀ c ∈ exC1.websocket_clients, exC1.createOk c = true → exC1.sendOk c = true →
        c ∈ (broadcast_log_message exC1).delivered) :=
  ⟨⟨by simp [exC1], rfl⟩, C1_broadcast_isolates_send_failures exC1 (by simp [exC1]) rfl⟩

/-- C6: broadcast attempted before the loop reference is published
returns normally, submits nothing to the loop, and delivers the line to
nobody — the line is dropped, no fault crosses to the caller. -/
theorem C6_no_loop_drops_line (st : BroadcastState)
    (h : st.websocket_loop = false) :
    (broadcast_log_message st).raised = false ∧
    (broadcast_log_message st).submitted = false ∧
    (broadcast_log_message st).delivered = [] := by
  refine ⟨broadcast_never_raises st, ?_⟩
  simp only [broadcast_log_message]
  split
  · exact ⟨rfl, rfl⟩
  · rw [h]
    simp

/-- C6 witness: one connection, loop still unpublished. -/
theorem C6_witness :
    exC6.websocket_loop = false ∧
    ((broadcast_log_message exC6).raised = false ∧
      (broadcast_log_message exC6).submitted = false ∧
      (broadcast_log_message exC6).delivered = []) :=
  ⟨rfl, C6_no_loop_drops_line exC6 rfl⟩

/-- C8: broadcast on an empty registry performs zero `ws.send` calls,
submits nothing to the loop, delivers nothing, and returns successfully. -/
theorem C8_empty_registry_is_noop (st : BroadcastState)
    (h : st.websocket_clients = []) :
    (broadcast_log_message st).raised = false ∧
    (broadcast_log_message st).sendCalls = 0 ∧
    (broadcast_log_message st).submitted = false ∧
    (broadcast_log_message st).delivered = [] := by
  simp [broadcast_log_message, h]

/-- C8 witness: the empty registry. -/
theorem C8_witness :
    exC8.websocket_clients = [] ∧
    ((broadcast_log_message exC8).raised = false ∧
      (broadcast_log_message exC8).sendCalls = 0 ∧
      (broadcast_log_message exC8).submitted = false ∧
      (broadcast_log_message exC8).delivered = []) :=
  ⟨rfl, C8_empty_registry_is_noop exC8 rfl⟩

/-- C4 as stated is false at a concrete input: removing connection 0
from the registry `{0}` succeeds, but the second removal — the registry
now being empty — raises `KeyError` (`none`) instead of being a no-op. -/
theorem C4_counterexample :
    unregister ({0} : Finset Conn) 0 = some (∅ : Finset Conn) ∧
    unregister (∅ : Finset Conn) 0 = none := by
  constructor
  · simp [unregister]
  · simp [unregister]

/-- C4 amended: the first unregister removes the connection and leaves
the registry without it; a second call on the already-removed connection
raises `KeyError` (Python `set.remove` on a missing element) rather than
being a no-op, leaving the registry still without the connection. -/
theorem C4_second_unregister_raises (reg : Finset Conn) (conn : Conn)
    (h : conn ∈ reg) :
    unregister reg conn = some (reg.erase conn) ∧
    conn ∉ reg.erase conn ∧
    unregister (reg.erase conn) conn = none :=
  ⟨by simp [unregister, h], Finset.not_mem_erase conn reg,
    by simp [unregister]⟩

/-- C4 witness: registry `{0}`, connection 0. -/
theorem C4_witness :
    ((0 : Conn) ∈ ({0} : Finset Conn)) ∧
    (unregister ({0} : Finset Conn) 0 = some (({0} : Finset Conn).erase 0) ∧
      (0 : Conn) ∉ ({0} : Finset Conn).erase 0 ∧
      unregister (({0} : Finset Conn).erase 0) 0 = none) :=
  ⟨by decide, C4_second_unregister_raises {0} 0 (by decide)⟩

theorem attachTo_single (a : Handler) (lg : Logger) :
    attachTo [a] lg = { handlers := [a], level := INFO, propagate := false } := by
  simp [attachTo, addHandler]

/-- C7: after rewiring with the single adapter-backed handler, every
pre-existing named logger and the root logger carry exactly that one
handler, sit at level INFO, and no longer propagate; emitting one record
at or above INFO through any of them invokes the adapter exactly once,
whatever handlers the ancestor chain carries. -/
theorem C7_rewire_single_adapter_invocation (st : LoggingState) (a : Handler)
    (name : Nat) (ancestors : List Logger) (recLevel : Nat)
    (hname : name ∈ st.names) (hrec : INFO ≤ recLevel) (ha : a.level = 0) :
    ((attach_handler_to_all_loggers [a] st).getLogger name).handlers = [a] ∧
    INFO ≤ ((attach_handler_to_all_loggers [a] st).getLogger name).level ∧
    ((attach_handler_to_all_loggers [a] st).getLogger name).propagate = false ∧
    (attach_handler_to_all_loggers [a] st).root.handlers = [a] ∧
    INFO ≤ (attach_handler_to_all_loggers [a] st).root.level ∧
    (attach_handler_to_all_loggers [a] st).root.propagate = false ∧
    emitRecord ((attach_handler_to_all_loggers [a] st).getLogger name :: ancestors)
      recLevel a = 1 ∧
    emitRecord ((attach_handler_to_all_loggers [a] st).root :: ancestors)
      recLevel a = 1 := by
  have hget : (attach_handler_to_all_loggers [a] st).getLogger name =
      { handlers := [a], level := INFO, propagate := false } := by
    simp [attach_handler_to_all_loggers, hname, attachTo_single]
  have hroot : (attach_handler_to_all_loggers [a] st).root =
      { handlers := [a], level := INFO, propagate := false } := by
    simp [attach_handler_to_all_loggers, attachTo_single]
  have hemit :
      emitRecord (({ handlers := [a], level := INFO, propagate := false } : Logger)
        :: ancestors) recLevel a = 1 := by
    simp [emitRecord, getEffectiveLevel, callHandlersCount, INFO, ha,
      show (20 : Nat) ≤ recLevel from hrec]
  rw [hget, hroot]
  exact ⟨rfl, le_rfl, rfl, rfl, le_rfl, rfl, hemit, hemit⟩

/-- C7 witness: the one-name registry, the adapter handler, a record at
level INFO, and an ancestor that itself carries the adapter. -/
theorem C7_witness :
    ((1 : Nat) ∈ exLoggingState.names ∧ INFO ≤ 20 ∧ exHandler.level = 0) ∧
    (((attach_handler_to_all_loggers [exHandler] exLoggingState).getLogger 1).handlers
        = [exHandler] ∧
      INFO ≤ ((attach_handler_to_all_loggers [exHandler] exLoggingState).getLogger 1).level ∧
      ((attach_handler_to_all_loggers [exHandler] exLoggingState).getLogger 1).propagate
        = false ∧
      (attach_handler_to_all_loggers [exHandler] exLoggingState).root.handlers
        = [exHandler] ∧
      INFO ≤ (attach_handler_to_all_loggers [exHandler] exLoggingState).root.level ∧
      (attach_handler_to_all_loggers [exHandler] exLoggingState).root.propagate = false ∧
      emitRecord
        ((attach_handler_to_all_loggers [exHandler] exLoggingState).getLogger 1
          :: [exAncestor]) 20 exHandler = 1 ∧
      emitRecord
        ((attach_handler_to_all_loggers [exHandler] exLoggingState).root
          :: [exAncestor]) 20 exHandler = 1) :=
  ⟨⟨by simp [exLoggingState], by decide, rfl⟩,
    C7_rewire_single_adapter_invocation exLoggingState exHandler 1 [exAncestor] 20
      (by simp [exLoggingState]) (by decide) rfl⟩
